import Mathlib

/-!
Verification development for the InventoryManager repository.

The repository is a Flask CRUD API over a single `products` table.  The
development below shallowly embeds the domain logic of `models.py`
(`Product.stock_alert`) and of `routes/products.py` (`get_all_products`,
`create_new_product`, `update_product`) and proves the specification's
testable properties about them.

Modelling conventions:
- JSON values are the inductive `Json`; Python `json.loads` of the stored
  `alert_config` text is modelled as an `Option Json` (`none` = the text does
  not parse).
- Python numeric values are modelled as `Int` (Python's machine-independent
  ints; float values that occur in the claims are integral).  `bool` values
  participate in Python numeric comparison as 0/1, which `asNum` reflects.
- Exceptions are modelled by `Except`/explicit error constructors; the
  distinction between Python `ValueError` and `TypeError` matters to the
  routes' `except` clauses and is kept in `PyErr`.
- Time is a `Nat` parameter `now`; the SQLAlchemy column default/onupdate
  `datetime.utcnow` sets `last_updated := now` on create and update.
-/

namespace InventoryManager

/-- A JSON value, as produced by Python's `json.loads`. -/
inductive Json where
  | null : Json
  | bool : Bool → Json
  | num : Int → Json
  | str : String → Json
  | arr : List Json → Json
  | obj : List (String × Json) → Json
deriving Repr

mutual

/-- Structural equality of JSON values (Python `==` on decoded data). -/
def jsonBeq : Json → Json → Bool
  | Json.null, Json.null => true
  | Json.bool a, Json.bool b => a == b
  | Json.num a, Json.num b => a == b
  | Json.str a, Json.str b => a == b
  | Json.arr a, Json.arr b => jsonListBeq a b
  | Json.obj a, Json.obj b => jsonFieldsBeq a b
  | _, _ => false

/-- Elementwise equality of JSON arrays. -/
def jsonListBeq : List Json → List Json → Bool
  | [], [] => true
  | x :: xs, y :: ys => jsonBeq x y && jsonListBeq xs ys
  | _, _ => false

/-- Elementwise equality of JSON object field lists. -/
def jsonFieldsBeq : List (String × Json) → List (String × Json) → Bool
  | [], [] => true
  | (k, v) :: xs, (k', v') :: ys => k == k' && jsonBeq v v' && jsonFieldsBeq xs ys
  | _, _ => false

end

mutual

theorem jsonBeq_refl : (a : Json) → jsonBeq a a = true
  | Json.null => rfl
  | Json.bool b => by simp [jsonBeq]
  | Json.num n => by simp [jsonBeq]
  | Json.str s => by simp [jsonBeq]
  | Json.arr xs => by simp [jsonBeq, jsonListBeq_refl xs]
  | Json.obj fs => by simp [jsonBeq, jsonFieldsBeq_refl fs]

theorem jsonListBeq_refl : (xs : List Json) → jsonListBeq xs xs = true
  | [] => rfl
  | x :: xs => by simp [jsonListBeq, jsonBeq_refl x, jsonListBeq_refl xs]

theorem jsonFieldsBeq_refl : (xs : List (String × Json)) → jsonFieldsBeq xs xs = true
  | [] => rfl
  | (k, v) :: xs => by simp [jsonFieldsBeq, jsonBeq_refl v, jsonFieldsBeq_refl xs]

end

/-- Python `dict` lookup on a decoded JSON object (`config.get(key)`),
returning `none` when the key is absent. -/
def lookupField : List (String × Json) → String → Option Json
  | [], _ => none
  | (k, v) :: rest, key => if k = key then some v else lookupField rest key

/-- The numeric view Python takes of a value in an integer comparison:
`num n` is `n`, a `bool` is 0/1, and every other value raises `TypeError`
(`none`). -/
def asNum : Json → Option Int
  | Json.num n => some n
  | Json.bool b => some (if b then 1 else 0)
  | _ => none

/-- The `Product.stock_alert` property from `models.py`.  `alert_config` is the result of
`json.loads` on the stored text (`none` when parsing raised).  A non-object
value raises `AttributeError` at `config.get`, and a comparison of the
integer quantity with a non-numeric threshold raises `TypeError`; both are
caught by the `except Exception` clause, which returns the sentinel label. -/
def stock_alert (quantity : Int) (alert_config : Option Json) : String :=
  match alert_config with
  | none => "Alert Config Error"
  | some (Json.obj fields) =>
    let in_stock := (lookupField fields "in_stock").getD (Json.num 999999)
    let low_stock := (lookupField fields "low_stock").getD (Json.num 0)
    if quantity ≤ 0 then
      "Out of Stock"
    else
      match asNum low_stock with
      | none => "Alert Config Error"
      | some l =>
        if quantity ≤ l then
          "Low Stock"
        else
          match asNum in_stock with
          | none => "Alert Config Error"
          | some i => if quantity ≥ i then "In Stock" else "Moderate Stock"
  | some _ => "Alert Config Error"

/-- The canonical two-threshold numeric config of the specification. -/
def numericConfig (l i : Int) : Option Json :=
  some (Json.obj [("low_stock", Json.num l), ("in_stock", Json.num i)])

/-- Closed form of the classifier on a numeric two-threshold config. -/
theorem stock_alert_numericConfig (q l i : Int) :
    stock_alert q (numericConfig l i) =
      if q ≤ 0 then "Out of Stock"
      else if q ≤ l then "Low Stock"
      else if q ≥ i then "In Stock"
      else "Moderate Stock" := by
  simp [stock_alert, numericConfig, lookupField, asNum]

/-- Is a decoded JSON value an object?  (`config.get` raises `AttributeError`
on anything else.) -/
def isObj : Json → Bool
  | Json.obj _ => true
  | _ => false

/-- The hypothesis class of the spec's malformed-config property: does the
config decode to an object whose `low_stock` and `in_stock` fields (defaulted
to 0 and 999999 when absent) are numeric? -/
def decodesToNumericObj : Option Json → Bool
  | some (Json.obj fields) =>
      (asNum ((lookupField fields "low_stock").getD (Json.num 0))).isSome &&
      (asNum ((lookupField fields "in_stock").getD (Json.num 999999))).isSome
  | _ => false

/-- C1: the claim as stated fails when the thresholds are non-positive: at
`l = -2`, `i = -1` (so `l < i`) and `q = -1` the code returns "Out of Stock"
(rule `q ≤ 0` fires first) while the claimed "In Stock iff q ≥ i" would
require "In Stock". -/
theorem c1_counterexample :
    (-2 : Int) < -1 ∧
      ¬ (stock_alert (-1) (numericConfig (-2) (-1)) = "In Stock" ↔
          (-1 : Int) ≥ -1) := by
  decide

/-- C1 (amended): for a numeric config with `l < i` and additionally `0 < i`,
the classifier returns "Out of Stock" iff `q ≤ 0`, "Low Stock" iff
`0 < q ≤ l`, "In Stock" iff `q ≥ i`, and "Moderate Stock" otherwise. -/
theorem c1_classifier_cases (q l i : Int) (hli : l < i) (hi : 0 < i) :
    (stock_alert q (numericConfig l i) = "Out of Stock" ↔ q ≤ 0) ∧
    (stock_alert q (numericConfig l i) = "Low Stock" ↔ 0 < q ∧ q ≤ l) ∧
    (stock_alert q (numericConfig l i) = "In Stock" ↔ q ≥ i) ∧
    (¬ q ≤ 0 → ¬ (0 < q ∧ q ≤ l) → ¬ q ≥ i →
      stock_alert q (numericConfig l i) = "Moderate Stock") := by
  rw [stock_alert_numericConfig]
  split_ifs with h1 h2 h3 <;>
    refine ⟨?_, ?_, ?_, ?_⟩ <;> simp_all <;> omega

/-- Witness for `c1_classifier_cases` at q = 5, l = 3, i = 10. -/
theorem c1_classifier_cases_witness :
    (3 : Int) < 10 ∧ (0 : Int) < 10 ∧
      (stock_alert 5 (numericConfig 3 10) = "In Stock" ↔ (5 : Int) ≥ 10) :=
  ⟨by decide, by decide, (c1_classifier_cases 5 3 10 (by decide) (by decide)).2.2.1⟩

/-- C2: the claim as stated fails: a config that decodes to an object whose
threshold fields are non-numeric strings is not decodable into an object with
numeric fields, yet at `q = 0` the code returns "Out of Stock" (the `q ≤ 0`
test precedes any threshold comparison), not "Alert Config Error". -/
theorem c2_counterexample :
    decodesToNumericObj
        (some (Json.obj [("low_stock", Json.str "a"), ("in_stock", Json.str "b")]))
      = false ∧
    stock_alert 0
        (some (Json.obj [("low_stock", Json.str "a"), ("in_stock", Json.str "b")]))
      = "Out of Stock" := by
  decide

/-- C2 (amended): the classifier raises no exception (it always returns one of
the five labels), and every config that fails to parse as JSON or parses to a
non-object value yields exactly "Alert Config Error".  (A config that parses
to an object with a non-numeric threshold yields "Alert Config Error" only
when the quantity comparison reaches that threshold.) -/
theorem c2_malformed_config (q : Int) (cfg : Option Json) :
    ((∀ j, cfg = some j → isObj j = false) →
      stock_alert q cfg = "Alert Config Error") ∧
    (stock_alert q cfg = "Out of Stock" ∨
     stock_alert q cfg = "Low Stock" ∨
     stock_alert q cfg = "In Stock" ∨
     stock_alert q cfg = "Moderate Stock" ∨
     stock_alert q cfg = "Alert Config Error") := by
  constructor
  · intro h
    match cfg with
    | none => rfl
    | some j =>
      have hj := h j rfl
      cases j <;> simp_all [stock_alert, isObj]
  · rcases cfg with _ | j
    · simp [stock_alert]
    · rcases j with _ | b | n | s | xs | fields <;> simp only [stock_alert] <;> try tauto
      split_ifs with h
      · tauto
      · rcases hl : asNum ((lookupField fields "low_stock").getD (Json.num 0)) with _ | l <;>
          simp only [hl]
        · tauto
        · split_ifs with h2
          · tauto
          · rcases hi : asNum ((lookupField fields "in_stock").getD (Json.num 999999)) with _ | i <;>
              simp only [hi]
            · tauto
            · split_ifs <;> tauto

/-- Witness for `c2_malformed_config` at q = 7, cfg = a JSON array. -/
theorem c2_malformed_config_witness :
    stock_alert 7 (some (Json.arr [])) = "Alert Config Error" :=
  (c2_malformed_config 7 (some (Json.arr []))).1
    (fun j hj => by cases hj; rfl)

/-! ## The product record and the Python numeric coercions -/

/-- A row of the `products` table (`models.py`).  `product_index`, `name` and
the optional text fields are stored exactly as the route received them, so
they are kept as raw JSON values; prices and quantity are the results of the
route's `float`/`int` coercions (integral values, modelled as `Int`);
`alert_config` is the decoded value whose `json.dumps` the route stores;
`last_updated` is the commit time. -/
structure Product where
  id : Nat
  product_index : Json
  name : Json
  buying_price : Int
  selling_price : Int
  quantity : Int
  alert_config : Json
  description : Json
  supplier_name : Json
  category : Json
  last_updated : Nat
deriving Repr

/-- The two classes of exception a Python numeric coercion can raise:
`int`/`float` raise `ValueError` on an unparsable string and `TypeError` on an
argument that is not a string or a number (`None`, lists, dicts). -/
inductive PyErr where
  | valueError : PyErr
  | typeError : PyErr
deriving Repr, DecidableEq

/-- Parse an unsigned run of decimal digits (helper for `pyIntStr`). -/
def parseDigitsAux : List Char → Nat → Option Nat
  | [], acc => some acc
  | c :: cs, acc =>
    if c.isDigit then parseDigitsAux cs (acc * 10 + (c.toNat - 48)) else none

/-- Python's integer parsing of a string (an optional minus sign followed by
decimal digits; anything else raises `ValueError`, modelled as `none`). -/
def pyIntStr (s : String) : Option Int :=
  match s.data with
  | [] => none
  | '-' :: cs =>
    match cs with
    | [] => none
    | _ => (parseDigitsAux cs 0).map (fun n => -(n : Int))
  | cs => (parseDigitsAux cs 0).map (fun n => (n : Int))

/-- Python `float(x)` on a decoded JSON value: numbers (and bools, which are
numeric in Python) succeed, strings succeed when they denote a number and
raise `ValueError` otherwise, and every other value raises `TypeError`.
(Values are integral in all claims, so the result is kept as `Int`.) -/
def pyFloat : Json → Except PyErr Int
  | Json.num n => Except.ok n
  | Json.bool b => Except.ok (if b then 1 else 0)
  | Json.str s =>
    match pyIntStr s with
    | some n => Except.ok n
    | none => Except.error PyErr.valueError
  | _ => Except.error PyErr.typeError

/-- Python `int(x)` on a decoded JSON value, with the same error classes as
`pyFloat`. -/
def pyInt : Json → Except PyErr Int
  | Json.num n => Except.ok n
  | Json.bool b => Except.ok (if b then 1 else 0)
  | Json.str s =>
    match pyIntStr s with
    | some n => Except.ok n
    | none => Except.error PyErr.valueError
  | _ => Except.error PyErr.typeError

/-! ## Create (`create_new_product` in `routes/products.py`) -/

/-- The required fields of a create request, in source order. -/
def required_fields : List String :=
  ["product_index", "name", "buying_price", "selling_price", "quantity", "alert_config"]

/-- The `field not in data` filter of `create_new_product`: the required
fields absent from the request body, in source order. -/
def missingFields (data : List (String × Json)) : List String :=
  required_fields.filter (fun f => (lookupField data f).isNone)

/-- The outcome of `create_new_product`, before rendering to an HTTP
response. -/
inductive CreateOutcome where
  | missingErr : List String → CreateOutcome
  | duplicateErr : CreateOutcome
  | valueErr : CreateOutcome
  | internalErr : CreateOutcome
  | created : Product → CreateOutcome
deriving Repr

/-- HTTP status code and message of each create outcome, following the
route's `error_response`/success returns (the `ValueError` and generic
handlers append the exception text, elided here). -/
def renderCreate : CreateOutcome → Nat × String
  | CreateOutcome.missingErr fs => (400, "Missing fields: " ++ String.intercalate ", " fs)
  | CreateOutcome.duplicateErr => (400, "Product index already exists")
  | CreateOutcome.valueErr => (400, "Invalid data format")
  | CreateOutcome.internalErr => (500, "Unexpected error")
  | CreateOutcome.created _ => (201, "Product created successfully")

/-- The id the database assigns to a freshly inserted row (autoincrement
primary key, modelled as one more than the largest id in the store). -/
def nextId (store : List Product) : Nat :=
  (store.map Product.id).foldr max 0 + 1

/-- The route `create_new_product` on a JSON request body: validate the required
fields (reporting every missing one), re-encode `alert_config` (always
succeeds for decoded JSON data), reject a duplicate `product_index`, then
build the row, coercing the prices with `float` and the quantity with `int`
in the source's argument order.  A coercion raising `ValueError` reaches the
route's `except ValueError` (400); one raising `TypeError` reaches only the
generic `except Exception` (500).  Optional fields default to the empty
string. -/
def create_new_product (data : List (String × Json)) (store : List Product)
    (now : Nat) : CreateOutcome :=
  if missingFields data ≠ [] then
    CreateOutcome.missingErr (missingFields data)
  else
    if store.any (fun p => jsonBeq p.product_index
        ((lookupField data "product_index").getD Json.null)) then
      CreateOutcome.duplicateErr
    else
      match pyFloat ((lookupField data "buying_price").getD Json.null) with
      | Except.error PyErr.valueError => CreateOutcome.valueErr
      | Except.error PyErr.typeError => CreateOutcome.internalErr
      | Except.ok bp =>
        match pyFloat ((lookupField data "selling_price").getD Json.null) with
        | Except.error PyErr.valueError => CreateOutcome.valueErr
        | Except.error PyErr.typeError => CreateOutcome.internalErr
        | Except.ok sp =>
          match pyInt ((lookupField data "quantity").getD Json.null) with
          | Except.error PyErr.valueError => CreateOutcome.valueErr
          | Except.error PyErr.typeError => CreateOutcome.internalErr
          | Except.ok qty =>
            CreateOutcome.created
              { id := nextId store
                product_index := (lookupField data "product_index").getD Json.null
                name := (lookupField data "name").getD Json.null
                buying_price := bp
                selling_price := sp
                quantity := qty
                alert_config := (lookupField data "alert_config").getD Json.null
                description := (lookupField data "description").getD (Json.str "")
                supplier_name := (lookupField data "supplier_name").getD (Json.str "")
                category := (lookupField data "category").getD (Json.str "")
                last_updated := now }

/-- The store after a create: `db.session.add` + `commit` append the new row
on success; every error path leaves the store untouched. -/
def createStore (data : List (String × Json)) (store : List Product)
    (now : Nat) : List Product :=
  match create_new_product data store now with
  | CreateOutcome.created p => store ++ [p]
  | _ => store

/-! ## Update (`update_product` in `routes/products.py`) -/

/-- The outcome of `update_product`. -/
inductive UpdateOutcome where
  | notFound : UpdateOutcome
  | fieldErr : String → Nat → UpdateOutcome
  | updated : Product → UpdateOutcome
deriving Repr

/-- One numeric-field branch of the update route: absent key keeps the
current value; a present key is coerced inside `try/except ValueError`
(`ValueError` → the field-specific 400, `TypeError` → the generic 500). -/
def updNumField (cur : Int) (v : Option Json) (coe : Json → Except PyErr Int)
    (errMsg : String) : Except (String × Nat) Int :=
  match v with
  | none => Except.ok cur
  | some j =>
    match coe j with
    | Except.ok n => Except.ok n
    | Except.error PyErr.valueError => Except.error (errMsg, 400)
    | Except.error PyErr.typeError => Except.error ("Unexpected error", 500)

/-- The sequence of `if field in data` branches of the update route, in
source order.  `id` and `product_index` have no branch and are never
touched.  An error return leaves the stored row unchanged (the session is
never committed on an error path). -/
def applyUpdates (p : Product) (data : List (String × Json)) :
    Except (String × Nat) Product :=
  match updNumField p.buying_price (lookupField data "buying_price")
      pyFloat "Invalid buying_price format" with
  | Except.error e => Except.error e
  | Except.ok bp =>
    match updNumField p.selling_price (lookupField data "selling_price")
        pyFloat "Invalid selling_price format" with
    | Except.error e => Except.error e
    | Except.ok sp =>
      match updNumField p.quantity (lookupField data "quantity")
          pyInt "Invalid quantity format" with
      | Except.error e => Except.error e
      | Except.ok qty =>
        Except.ok { p with
          name := (lookupField data "name").getD p.name
          buying_price := bp
          selling_price := sp
          quantity := qty
          alert_config := (lookupField data "alert_config").getD p.alert_config
          description := (lookupField data "description").getD p.description
          supplier_name := (lookupField data "supplier_name").getD p.supplier_name
          category := (lookupField data "category").getD p.category }

/-- The route `update_product`: look the row up by id (404 when absent), apply the
present fields, and on success commit, which refreshes `last_updated`
(`onupdate=datetime.utcnow`) and persists the row in place. -/
def update_product (store : List Product) (product_id : Nat)
    (data : List (String × Json)) (now : Nat) : UpdateOutcome × List Product :=
  match store.find? (fun p => p.id = product_id) with
  | none => (UpdateOutcome.notFound, store)
  | some p =>
    match applyUpdates p data with
    | Except.error (m, c) => (UpdateOutcome.fieldErr m c, store)
    | Except.ok p1 =>
      let p2 := { p1 with last_updated := now }
      (UpdateOutcome.updated p2,
        store.map (fun q => if q.id = product_id then p2 else q))

/-! ## List (`get_all_products` in `routes/products.py`) -/

/-- Flask's `request.args.get(name, default, type=int)`: the default when the
parameter is absent or its `int(·)` conversion fails, the parsed integer
otherwise. -/
def parseIntArg (raw : Option String) (dflt : Int) : Int :=
  match raw with
  | none => dflt
  | some s => (pyIntStr s).getD dflt

/-- The pagination object the route reads `items`, `total`, `pages`,
`has_next` and `has_prev` from. -/
structure PaginationData where
  items : List Product
  total : Nat
  page : Nat
  per_page : Nat
deriving Repr

/-- Modelled from the spec: `Query.paginate(page, per_page, error_out=False)`
of flask-sqlalchemy is not part of this repository.  Per the spec's List
contract, the effective parameters always satisfy `page ≥ 1` and
`per_page ≥ 1` (invalid values fall back to the defaults 1 and 25), the rows
are returned in stable store order, and an out-of-range page yields an empty
slice instead of failing. -/
def paginate (store : List Product) (page per_page : Int) : PaginationData :=
  let pageN : Nat := if page < 1 then 1 else page.toNat
  let perN : Nat := if per_page < 1 then 25 else per_page.toNat
  { items := (store.drop ((pageN - 1) * perN)).take perN
    total := store.length
    page := pageN
    per_page := perN }

/-- Modelled from the spec: `pages` is the ceiling division of `total` by
`per_page`, and 0 on an empty store. -/
def PaginationData.pages (pg : PaginationData) : Nat :=
  if pg.total = 0 then 0 else (pg.total + pg.per_page - 1) / pg.per_page

/-- Modelled from the spec: there is a next page iff the current page is
before the last one. -/
def PaginationData.has_next (pg : PaginationData) : Bool :=
  pg.page < pg.pages

/-- Modelled from the spec: there is a previous page iff the current page is
after the first one. -/
def PaginationData.has_prev (pg : PaginationData) : Bool :=
  1 < pg.page

/-- The body of the route's 200 response: the serialized page of records and
the pagination metadata (`current_page` and `per_page` echo the request
values as the source does). -/
structure ListResponse where
  data : List Product
  total : Nat
  pages : Nat
  current_page : Int
  per_page : Int
  has_next : Bool
  has_prev : Bool
deriving Repr

/-- The route `get_all_products`: parse the query parameters with defaults 1 and 25,
paginate, and assemble the response. -/
def get_all_products (store : List Product) (rawPage rawPerPage : Option String) :
    ListResponse :=
  let page := parseIntArg rawPage 1
  let per_page := parseIntArg rawPerPage 25
  let pg := paginate store page per_page
  { data := pg.items
    total := pg.total
    pages := pg.pages
    current_page := page
    per_page := per_page
    has_next := pg.has_next
    has_prev := pg.has_prev }

/-! ## Claims about update -/

theorem applyUpdates_ok_identity (p : Product) (data : List (String × Json))
    (p1 : Product) (h : applyUpdates p data = Except.ok p1) :
    p1.id = p.id ∧ p1.product_index = p.product_index := by
  unfold applyUpdates at h
  split at h
  · exact nomatch h
  · split at h
    · exact nomatch h
    · split at h
      · exact nomatch h
      · injection h with h
        subst h
        exact ⟨rfl, rfl⟩

/-- C3: an update request whose body holds only the key `quantity` with an
int-coercible value succeeds, leaves every stored field except `quantity`
(and the refreshed `last_updated`) unchanged, sets `quantity` to the coerced
value and `last_updated` to the current time, and replaces only that row in
the store. -/
theorem c3_update_only_quantity (store : List Product) (product_id : Nat)
    (p : Product) (v : Json) (n : Int) (now : Nat)
    (hfind : store.find? (fun q => q.id = product_id) = some p)
    (hv : pyInt v = Except.ok n) :
    update_product store product_id [("quantity", v)] now =
      (UpdateOutcome.updated { p with quantity := n, last_updated := now },
       store.map (fun q => if q.id = product_id then
         { p with quantity := n, last_updated := now } else q)) := by
  have happ : applyUpdates p [("quantity", v)] =
      Except.ok { p with quantity := n } := by
    cases hpy : pyInt v with
    | error e => rw [hpy] at hv; exact nomatch hv
    | ok m =>
      rw [hpy] at hv
      injection hv with hv
      subst hv
      simp [applyUpdates, updNumField, lookupField, hpy]
  unfold update_product
  rw [hfind]
  simp [happ]

/-- Witness product for the update claims. -/
def sampleProduct : Product :=
  { id := 1
    product_index := Json.str "P-1"
    name := Json.str "Widget"
    buying_price := 10
    selling_price := 15
    quantity := 4
    alert_config := Json.obj [("low_stock", Json.num 2), ("in_stock", Json.num 50)]
    description := Json.str ""
    supplier_name := Json.str ""
    category := Json.str ""
    last_updated := 100 }

/-- Second witness product, with a distinct id and index. -/
def sampleProduct2 : Product :=
  { sampleProduct with id := 2, product_index := Json.str "P-2" }

/-- Witness for `c3_update_only_quantity`: update product 1 of a two-row
store to quantity 7 at time 200. -/
theorem c3_update_only_quantity_witness :
    update_product [sampleProduct, sampleProduct2] 1 [("quantity", Json.num 7)] 200 =
      (UpdateOutcome.updated { sampleProduct with quantity := 7, last_updated := 200 },
       [{ sampleProduct with quantity := 7, last_updated := 200 }, sampleProduct2]) := by
  rw [c3_update_only_quantity [sampleProduct, sampleProduct2] 1 sampleProduct
    (Json.num 7) 7 200 rfl rfl]
  simp [sampleProduct, sampleProduct2]

/-- C9: no update request body can change a row's `id` or `product_index`
(the route has no branch for either key), so both key columns of the store
are untouched and pairwise-distinct product indices stay pairwise
distinct.  (Distinct ids are the table's primary-key invariant.) -/
theorem c9_update_preserves_keys (store : List Product) (product_id : Nat)
    (data : List (String × Json)) (now : Nat)
    (hids : (store.map Product.id).Nodup) :
    ((update_product store product_id data now).2.map Product.id =
        store.map Product.id) ∧
    ((update_product store product_id data now).2.map Product.product_index =
        store.map Product.product_index) ∧
    ((store.map Product.product_index).Nodup →
      ((update_product store product_id data now).2.map Product.product_index).Nodup) := by
  rcases hfind : store.find? (fun q => q.id = product_id) with _ | p
  · simp [update_product, hfind]
  · rcases happ : applyUpdates p data with ⟨m, c⟩ | p1
    · simp [update_product, hfind, happ]
    · have hident := applyUpdates_ok_identity p data p1 happ
      have hpid : p.id = product_id := by
        have := List.find?_some hfind
        simpa using this
      have hpmem : p ∈ store := List.mem_of_find?_eq_some hfind
      have hstore : (update_product store product_id data now).2 =
          store.map (fun q => if q.id = product_id then
            { p1 with last_updated := now } else q) := by
        simp [update_product, hfind, happ]
      have hmapid : (store.map (fun q => if q.id = product_id then
          { p1 with last_updated := now } else q)).map Product.id =
            store.map Product.id := by
        rw [List.map_map]
        refine List.map_congr_left ?_
        intro q hq
        by_cases hcase : q.id = product_id
        · simp [Function.comp, hcase, hident.1, hpid]
        · simp [Function.comp, hcase]
      have hmappidx : (store.map (fun q => if q.id = product_id then
          { p1 with last_updated := now } else q)).map Product.product_index =
            store.map Product.product_index := by
        rw [List.map_map]
        refine List.map_congr_left ?_
        intro q hq
        by_cases hcase : q.id = product_id
        · have hqp : q = p :=
            List.inj_on_of_nodup_map hids hq hpmem (by rw [hcase, hpid])
          simp [Function.comp, hcase, hident.2, hqp, hpid]
        · simp [Function.comp, hcase]
      refine ⟨?_, ?_, ?_⟩
      · rw [hstore, hmapid]
      · rw [hstore, hmappidx]
      · intro h
        rw [hstore, hmappidx]
        exact h

/-- Witness for `c9_update_preserves_keys`: an update body that tries to
overwrite both keys of product 1. -/
theorem c9_update_preserves_keys_witness :
    ((update_product [sampleProduct, sampleProduct2] 1
        [("id", Json.num 9), ("product_index", Json.str "P-9")] 200).2.map
          Product.product_index = [Json.str "P-1", Json.str "P-2"]) ∧
    ([Json.str "P-1", Json.str "P-2"] : List Json).Nodup := by
  have h := c9_update_preserves_keys [sampleProduct, sampleProduct2] 1
    [("id", Json.num 9), ("product_index", Json.str "P-9")] 200
    (by simp [sampleProduct, sampleProduct2])
  refine ⟨?_, by simp⟩
  rw [h.2.1]
  simp [sampleProduct, sampleProduct2]

/-! ## Claims about create -/

/-- A complete create request whose `product_index` duplicates
`sampleProduct`'s. -/
def c4Data : List (String × Json) :=
  [("product_index", Json.str "P-1"), ("name", Json.str "W"),
   ("buying_price", Json.num 10), ("selling_price", Json.num 15),
   ("quantity", Json.num 4),
   ("alert_config", Json.obj [("low_stock", Json.num 2), ("in_stock", Json.num 50)])]

/-- C4: the claim as stated fails: a request whose `product_index`
duplicates a stored product but which misses other required fields is
answered by the missing-fields validation error (that check runs first),
not by the duplicate-index Conflict. -/
theorem c4_counterexample :
    sampleProduct.product_index = Json.str "P-1" ∧
    lookupField [("product_index", Json.str "P-1")] "product_index" =
      some (Json.str "P-1") ∧
    create_new_product [("product_index", Json.str "P-1")] [sampleProduct] 0 =
      CreateOutcome.missingErr
        ["name", "buying_price", "selling_price", "quantity", "alert_config"] ∧
    create_new_product [("product_index", Json.str "P-1")] [sampleProduct] 0 ≠
      CreateOutcome.duplicateErr := by
  refine ⟨rfl, rfl, rfl, ?_⟩
  intro h
  exact nomatch h

/-- C4 (amended): a create request containing all required fields whose
`product_index` equals that of an already-stored product is rejected as a
duplicate — HTTP 400 with "Product index already exists" — and the store is
unchanged. -/
theorem c4_duplicate_index (data : List (String × Json)) (store : List Product)
    (now : Nat) (pidx : Json) (p : Product)
    (hall : missingFields data = [])
    (hpidx : lookupField data "product_index" = some pidx)
    (hmem : p ∈ store) (hdup : p.product_index = pidx) :
    create_new_product data store now = CreateOutcome.duplicateErr ∧
    createStore data store now = store ∧
    renderCreate (create_new_product data store now) =
      (400, "Product index already exists") := by
  have hany : store.any
      (fun q => jsonBeq q.product_index ((lookupField data "product_index").getD Json.null))
        = true := by
    rw [hpidx, List.any_eq_true]
    exact ⟨p, hmem, by rw [Option.getD_some, hdup]; exact jsonBeq_refl pidx⟩
  have hout : create_new_product data store now = CreateOutcome.duplicateErr := by
    simp [create_new_product, hall, hany]
  exact ⟨hout, by unfold createStore; rw [hout], by rw [hout]; rfl⟩

/-- Witness for `c4_duplicate_index`: creating `c4Data` over a store already
holding index "P-1". -/
theorem c4_duplicate_index_witness :
    create_new_product c4Data [sampleProduct] 0 = CreateOutcome.duplicateErr ∧
    createStore c4Data [sampleProduct] 0 = [sampleProduct] := by
  have h := c4_duplicate_index c4Data [sampleProduct] 0 (Json.str "P-1")
    sampleProduct rfl rfl (by simp) rfl
  exact ⟨h.1, h.2.1⟩

/-- C5: when two or more required fields are absent, create returns the
missing-fields validation error carrying every absent required field, and the
rendered 400 message interpolates that whole list. -/
theorem c5_missing_fields (data : List (String × Json)) (store : List Product)
    (now : Nat) (h2 : 2 ≤ (missingFields data).length) :
    create_new_product data store now = CreateOutcome.missingErr (missingFields data) ∧
    (∀ f ∈ required_fields, lookupField data f = none → f ∈ missingFields data) ∧
    renderCreate (create_new_product data store now) =
      (400, "Missing fields: " ++ String.intercalate ", " (missingFields data)) := by
  have hne : missingFields data ≠ [] := by
    intro h
    rw [h] at h2
    simp at h2
  have hout : create_new_product data store now =
      CreateOutcome.missingErr (missingFields data) := by
    simp [create_new_product, hne]
  refine ⟨hout, ?_, by rw [hout]; rfl⟩
  intro f hf hnone
  unfold missingFields
  rw [List.mem_filter]
  exact ⟨hf, by simp [hnone]⟩

/-- A create request missing both `buying_price` and `quantity`. -/
def c5Data : List (String × Json) :=
  [("product_index", Json.str "P-7"), ("name", Json.str "W"),
   ("selling_price", Json.num 15), ("alert_config", Json.obj [])]

/-- Witness for `c5_missing_fields`: both absent field names are reported. -/
theorem c5_missing_fields_witness :
    create_new_product c5Data [] 0 =
      CreateOutcome.missingErr ["buying_price", "quantity"] ∧
    renderCreate (create_new_product c5Data [] 0) =
      (400, "Missing fields: buying_price, quantity") := by
  have h := c5_missing_fields c5Data [] 0 (by decide)
  exact ⟨h.1.trans rfl, h.2.2.trans rfl⟩

/-- A complete create request whose `buying_price` is JSON `null`. -/
def c6Data : List (String × Json) :=
  [("product_index", Json.str "P-9"), ("name", Json.str "Thing"),
   ("buying_price", Json.null), ("selling_price", Json.num 5),
   ("quantity", Json.num 1), ("alert_config", Json.obj [])]

/-- C6: the claim as stated fails: with every required field present and
`buying_price = null`, `float(None)` raises `TypeError`, which the route's
`except ValueError` does not catch; the generic handler answers 500
(Internal), not the claimed 400 ValidationError. -/
theorem c6_counterexample :
    create_new_product c6Data [] 0 = CreateOutcome.internalErr ∧
    renderCreate (create_new_product c6Data [] 0) = (500, "Unexpected error") :=
  ⟨rfl, rfl⟩

/-- C6 (amended): with all required fields present and no duplicate index, a
price/quantity coercion raising `ValueError` (an unparsable string) yields
the 400 validation error; one raising `TypeError` (null, array or object
values) falls through to the generic handler and yields 500; and when all
three coercions succeed the created record holds the coerced numeric values
and is appended to the store. -/
theorem c6_coercion_outcomes (data : List (String × Json)) (store : List Product)
    (now : Nat)
    (hall : missingFields data = [])
    (hdup : store.any (fun p => jsonBeq p.product_index
        ((lookupField data "product_index").getD Json.null)) = false) :
    (∀ e, pyFloat ((lookupField data "buying_price").getD Json.null) = Except.error e →
        create_new_product data store now =
          (match e with
           | PyErr.valueError => CreateOutcome.valueErr
           | PyErr.typeError => CreateOutcome.internalErr)) ∧
    (∀ bp e, pyFloat ((lookupField data "buying_price").getD Json.null) = Except.ok bp →
        pyFloat ((lookupField data "selling_price").getD Json.null) = Except.error e →
        create_new_product data store now =
          (match e with
           | PyErr.valueError => CreateOutcome.valueErr
           | PyErr.typeError => CreateOutcome.internalErr)) ∧
    (∀ bp sp e, pyFloat ((lookupField data "buying_price").getD Json.null) = Except.ok bp →
        pyFloat ((lookupField data "selling_price").getD Json.null) = Except.ok sp →
        pyInt ((lookupField data "quantity").getD Json.null) = Except.error e →
        create_new_product data store now =
          (match e with
           | PyErr.valueError => CreateOutcome.valueErr
           | PyErr.typeError => CreateOutcome.internalErr)) ∧
    (∀ bp sp qty, pyFloat ((lookupField data "buying_price").getD Json.null) = Except.ok bp →
        pyFloat ((lookupField data "selling_price").getD Json.null) = Except.ok sp →
        pyInt ((lookupField data "quantity").getD Json.null) = Except.ok qty →
        ∃ p, create_new_product data store now = CreateOutcome.created p ∧
          p.buying_price = bp ∧ p.selling_price = sp ∧ p.quantity = qty ∧
          createStore data store now = store ++ [p]) := by
  refine ⟨?_, ?_, ?_, ?_⟩
  · intro e he
    cases e <;> simp [create_new_product, hall, hdup, he]
  · intro bp e h1 he
    cases e <;> simp [create_new_product, hall, hdup, h1, he]
  · intro bp sp e h1 h2 he
    cases e <;> simp [create_new_product, hall, hdup, h1, h2, he]
  · intro bp sp qty h1 h2 h3
    have hcr : create_new_product data store now = CreateOutcome.created
        { id := nextId store
          product_index := (lookupField data "product_index").getD Json.null
          name := (lookupField data "name").getD Json.null
          buying_price := bp
          selling_price := sp
          quantity := qty
          alert_config := (lookupField data "alert_config").getD Json.null
          description := (lookupField data "description").getD (Json.str "")
          supplier_name := (lookupField data "supplier_name").getD (Json.str "")
          category := (lookupField data "category").getD (Json.str "")
          last_updated := now } := by
      simp [create_new_product, hall, hdup, h1, h2, h3]
    exact ⟨_, hcr, rfl, rfl, rfl, by unfold createStore; rw [hcr]⟩

/-- A complete create request whose `buying_price` is an unparsable
string. -/
def c6DataV : List (String × Json) :=
  [("product_index", Json.str "P-9"), ("name", Json.str "Thing"),
   ("buying_price", Json.str "abc"), ("selling_price", Json.num 5),
   ("quantity", Json.num 1), ("alert_config", Json.obj [])]

/-- Witness for `c6_coercion_outcomes`: `float("abc")` raises `ValueError`
and the request is answered with the 400 validation error. -/
theorem c6_coercion_outcomes_witness :
    create_new_product c6DataV [] 0 = CreateOutcome.valueErr ∧
    renderCreate (create_new_product c6DataV [] 0) = (400, "Invalid data format") := by
  have h := (c6_coercion_outcomes c6DataV [] 0 rfl rfl).1 PyErr.valueError rfl
  exact ⟨h, by rw [h]; rfl⟩

/-- C10: each optional field defaults independently: a created record stores
the empty string for `description`, for `supplier_name` and for `category`
whenever the request omitted that particular field, regardless of whether the
other optional fields were supplied. -/
theorem c10_optional_defaults (data : List (String × Json)) (store : List Product)
    (now : Nat) (p : Product)
    (h : create_new_product data store now = CreateOutcome.created p) :
    (lookupField data "description" = none → p.description = Json.str "") ∧
    (lookupField data "supplier_name" = none → p.supplier_name = Json.str "") ∧
    (lookupField data "category" = none → p.category = Json.str "") := by
  unfold create_new_product at h
  repeat' split at h
  all_goals first
    | exact CreateOutcome.noConfusion h
    | (injection h with h
       subst h
       exact ⟨fun hd => by simp [hd], fun hs => by simp [hs], fun hc => by simp [hc]⟩)

/-- A complete create request with no optional fields. -/
def c10Data : List (String × Json) :=
  [("product_index", Json.str "P-9"), ("name", Json.str "Thing"),
   ("buying_price", Json.num 3), ("selling_price", Json.num 5),
   ("quantity", Json.num 1), ("alert_config", Json.obj [])]

/-- The record `create_new_product c10Data [] 7` persists. -/
def c10Product : Product :=
  { id := 1
    product_index := Json.str "P-9"
    name := Json.str "Thing"
    buying_price := 3
    selling_price := 5
    quantity := 1
    alert_config := Json.obj []
    description := Json.str ""
    supplier_name := Json.str ""
    category := Json.str ""
    last_updated := 7 }

/-- A complete create request supplying `description` but omitting
`supplier_name` and `category`. -/
def c10DataPartial : List (String × Json) :=
  [("product_index", Json.str "P-9"), ("name", Json.str "Thing"),
   ("buying_price", Json.num 3), ("selling_price", Json.num 5),
   ("quantity", Json.num 1), ("alert_config", Json.obj []),
   ("description", Json.str "Nice")]

/-- The record `create_new_product c10DataPartial [] 7` persists. -/
def c10ProductPartial : Product :=
  { c10Product with description := Json.str "Nice" }

/-- Witness for `c10_optional_defaults`: with `description` supplied and the
other two optional fields omitted, only the omitted ones default to the empty
string; with all three omitted, `description` defaults too. -/
theorem c10_optional_defaults_witness :
    c10ProductPartial.description = Json.str "Nice" ∧
    c10ProductPartial.supplier_name = Json.str "" ∧
    c10ProductPartial.category = Json.str "" ∧
    c10Product.description = Json.str "" := by
  have h1 := c10_optional_defaults c10DataPartial [] 7 c10ProductPartial rfl
  have h2 := c10_optional_defaults c10Data [] 7 c10Product rfl
  exact ⟨rfl, h1.2.1 rfl, h1.2.2 rfl, h2.1 rfl⟩

/-! ## Claims about list/pagination -/

theorem paginate_page_ge_one (store : List Product) (page per_page : Int) :
    1 ≤ (paginate store page per_page).page ∧
      1 ≤ (paginate store page per_page).per_page := by
  constructor <;> simp only [paginate] <;> split_ifs <;> omega

theorem take_drop_out_of_range (l : List Product) (pg pp : Nat) (hpp : 1 ≤ pp)
    (h : (if l.length = 0 then 0 else (l.length + pp - 1) / pp) < pg) :
    (l.drop ((pg - 1) * pp)).take pp = [] := by
  rcases Nat.eq_zero_or_pos l.length with h0 | h0
  · rw [List.length_eq_zero.mp h0]
    simp
  · rw [if_neg (by omega)] at h
    have hdm := Nat.div_add_mod' (l.length + pp - 1) pp
    have hmod : (l.length + pp - 1) % pp < pp := Nat.mod_lt _ (by omega)
    have hT : l.length ≤ ((l.length + pp - 1) / pp) * pp := by omega
    have hle : ((l.length + pp - 1) / pp) * pp ≤ (pg - 1) * pp :=
      Nat.mul_le_mul_right pp (by omega)
    rw [List.drop_eq_nil_of_le (le_trans hT hle)]
    exact List.take_nil

/-- C7: when `page` or `per_page` is absent or unparsable the route uses the
defaults 1 and 25; the effective pagination parameters always satisfy
`page ≥ 1` and `per_page ≥ 1`; and a page beyond the last one yields an
empty slice rather than a failure. -/
theorem c7_list_defaults (store : List Product) (rawPage rawPerPage : Option String) :
    1 ≤ (paginate store (parseIntArg rawPage 1) (parseIntArg rawPerPage 25)).page ∧
    1 ≤ (paginate store (parseIntArg rawPage 1) (parseIntArg rawPerPage 25)).per_page ∧
    ((rawPage = none ∨ ∀ s, rawPage = some s → pyIntStr s = none) →
      parseIntArg rawPage 1 = 1) ∧
    ((rawPerPage = none ∨ ∀ s, rawPerPage = some s → pyIntStr s = none) →
      parseIntArg rawPerPage 25 = 25) ∧
    ((paginate store (parseIntArg rawPage 1) (parseIntArg rawPerPage 25)).pages <
        (paginate store (parseIntArg rawPage 1) (parseIntArg rawPerPage 25)).page →
      (paginate store (parseIntArg rawPage 1) (parseIntArg rawPerPage 25)).items = []) := by
  refine ⟨(paginate_page_ge_one store _ _).1, (paginate_page_ge_one store _ _).2,
    ?_, ?_, ?_⟩
  · rintro (h | h)
    · rw [h]
      rfl
    · cases rawPage with
      | none => rfl
      | some s => simp [parseIntArg, h s rfl]
  · rintro (h | h)
    · rw [h]
      rfl
    · cases rawPerPage with
      | none => rfl
      | some s => simp [parseIntArg, h s rfl]
  · have hpp := (paginate_page_ge_one store (parseIntArg rawPage 1)
      (parseIntArg rawPerPage 25)).2
    simp only [paginate, PaginationData.pages] at hpp ⊢
    intro h
    exact take_drop_out_of_range store _ _ hpp h

/-- A store of k rows with distinct ids and indices (witness data). -/
def sampleStore (k : Nat) : List Product :=
  (List.range k).map (fun j =>
    { id := j + 1
      product_index := Json.num (j : Int)
      name := Json.str "Item"
      buying_price := 1
      selling_price := 2
      quantity := 5
      alert_config := Json.obj []
      description := Json.str ""
      supplier_name := Json.str ""
      category := Json.str ""
      last_updated := 0 })

/-- Witness for `c7_list_defaults`: unparsable `page` falls back to 1,
absent `per_page` to 25, and requesting page 7 of a 3-row store yields an
empty slice. -/
theorem c7_list_defaults_witness :
    parseIntArg (some "abc") 1 = 1 ∧
    parseIntArg none 25 = 25 ∧
    (paginate (sampleStore 3) (parseIntArg (some "7") 1)
      (parseIntArg none 25)).items = [] := by
  refine ⟨(c7_list_defaults (sampleStore 3) (some "abc") none).2.2.1 (Or.inr ?_),
    (c7_list_defaults (sampleStore 3) (some "abc") none).2.2.2.1 (Or.inl rfl),
    (c7_list_defaults (sampleStore 3) (some "7") none).2.2.2.2 ?_⟩
  · intro s hs
    cases hs
    rfl
  · decide

/-- C8: `pages` is the ceiling division of `total` by the effective
`per_page` (in particular 0 on an empty store, where the data array is also
empty), and on 60 records with `per_page = 25`: page 1 returns 25 items with
`pages = 3`, `has_next = true`, `has_prev = false`, while page 3 returns the
remaining 10 items with `has_next = false`. -/
theorem c8_pagination_metadata :
    (∀ (store : List Product) (page per_page : Int),
        (paginate store page per_page).pages =
          ((paginate store page per_page).total +
              (paginate store page per_page).per_page - 1) /
            (paginate store page per_page).per_page) ∧
    ((get_all_products [] none none).total = 0 ∧
     (get_all_products [] none none).pages = 0 ∧
     (get_all_products [] none none).data = []) ∧
    ((get_all_products (sampleStore 60) (some "1") (some "25")).data.length = 25 ∧
     (get_all_products (sampleStore 60) (some "1") (some "25")).pages = 3 ∧
     (get_all_products (sampleStore 60) (some "1") (some "25")).has_next = true ∧
     (get_all_products (sampleStore 60) (some "1") (some "25")).has_prev = false) ∧
    ((get_all_products (sampleStore 60) (some "3") (some "25")).data.length = 10 ∧
     (get_all_products (sampleStore 60) (some "3") (some "25")).has_next = false) := by
  refine ⟨?_, ⟨rfl, rfl, rfl⟩, ⟨rfl, rfl, rfl, rfl⟩, ⟨rfl, rfl⟩⟩
  intro store page per_page
  have hpp := (paginate_page_ge_one store page per_page).2
  simp only [paginate, PaginationData.pages] at hpp ⊢
  by_cases h0 : store.length = 0
  · rw [if_pos h0, h0]
    rw [Nat.div_eq_of_lt (by omega)]
  · rw [if_neg h0]

end InventoryManager
